import Mathlib

/-!
# Verification of the cameraunit image core (src/imagedata.rs)

Shallow embedding of the `ImageData` operations of the repository:
the percentile-based exposure/binning optimizer `find_optimum_exposure`,
the FITS persistence routine `save_fits` together with its per-layout
channel-splitting helpers, and the `ImageData` ↔ `SerialImageData<u16>`
conversions.

Modelling conventions:
* Rust `f32`/`f64` values are modelled as exact rationals (`ℚ`); float
  literals are taken at their decimal value.
* `Duration` is modelled as a natural number of nanoseconds.
  `Duration::from_secs_f64` rounds to the nearest nanosecond, modelled as
  `⌊secs·10⁹ + 1/2⌋`; `as_micros` truncates, modelled as `/ 1000`.
* `usize` subtraction wraps (release-profile two's-complement semantics),
  modelled explicitly as arithmetic modulo `2^64`; `f32 → usize` casts
  saturate to `[0, 2^64 - 1]`.
* Integer narrowing casts (`u32 as u16`, `usize as u32`) are modelled as
  reduction modulo `2^16` / `2^32`.
-/

namespace CameraUnit

attribute [local semireducible] Rat.mul Rat.add Rat.sub Rat.inv

instance {ε α : Type _} [DecidableEq ε] [DecidableEq α] : DecidableEq (Except ε α) := fun x y =>
  match x, y with
  | .ok a, .ok b =>
      if h : a = b then isTrue (by rw [h]) else isFalse (fun hc => by cases hc; exact h rfl)
  | .error a, .error b =>
      if h : a = b then isTrue (by rw [h]) else isFalse (fun hc => by cases hc; exact h rfl)
  | .ok _, .error _ => isFalse (fun hc => by cases hc)
  | .error _, .ok _ => isFalse (fun hc => by cases hc)

/-- `usize::MAX + 1`. -/
def USIZE : Nat := 2 ^ 64

/-- Wrapping `usize` subtraction (for operands `< 2^64`). -/
def usizeSub (a b : Nat) : Nat := (a + USIZE - b % USIZE) % USIZE

/-- The closed set of pixel layouts handled by `imagedata.rs`
(the variants of `image::ColorType` the code matches on). -/
inductive ColorType where
  | L8 | L16 | La8 | La16
  | Rgb8 | Rgb16 | Rgb32F
  | Rgba8 | Rgba16 | Rgba32F
deriving DecidableEq

/-- Channel count fixed by the layout tag. -/
def ColorType.channelCount : ColorType → Nat
  | .L8 | .L16 => 1
  | .La8 | .La16 => 2
  | .Rgb8 | .Rgb16 | .Rgb32F => 3
  | .Rgba8 | .Rgba16 | .Rgba32F => 4

/-- `image::DynamicImage`: a runtime-tagged image.  Pixel data is the flat
row-major, channel-interleaved element sequence; element values (u8, u16 or
f32 depending on the layout family) are uniformly modelled as rationals. -/
structure DynamicImage where
  color : ColorType
  width : Nat
  height : Nat
  data : List ℚ
deriving DecidableEq

/-- `serialimagedata::ImageMetaData`: the acquisition metadata record.
`exposure` is in nanoseconds; `timestamp` is nanoseconds relative to the
Unix epoch (negative = before the epoch, where `duration_since` fails). -/
structure ImageMetaData where
  bin_x : Nat
  bin_y : Nat
  img_top : Nat
  img_left : Nat
  temperature : ℚ
  exposure : Nat
  timestamp : Int
  camera_name : String
  gain : Int
  offset : Int
  min_gain : Int
  max_gain : Int
  extended : List (String × String)
deriving DecidableEq

/-- `ImageData`: a `DynamicImage` together with its metadata. -/
structure ImageData where
  img : DynamicImage
  meta : ImageMetaData
deriving DecidableEq

/-! ## The exposure/binning optimizer (`ImageData::find_optimum_exposure`)

The optimizer operates on `self.img.clone().into_luma16()`: the flat list of
16-bit luma samples of the image.  The embedding takes that luma sample list
directly (for `L16` images `into_luma16` is the identity on the stored
buffer). -/

/-- `img.sort()`: the luma buffer sorted ascending. -/
def sortedSample (pixels : List Nat) : List Nat :=
  pixels.insertionSort (· ≤ ·)

/-- The sample index selected by `find_optimum_exposure` (lines 133-140):
percentile above 99.9 picks the last index, otherwise
`floor(percentile · (N-1) · 0.01)`; an index below `pixel_exclusion` is
re-pointed to `N - 1 - pixel_exclusion`.  All `usize` arithmetic wraps. -/
def sampleCoord (len : Nat) (percentile : ℚ) (pixel_exclusion : Nat) : Nat :=
  let coord : Nat :=
    if 999 / 10 < percentile then
      usizeSub len 1
    else
      min (USIZE - 1) (Int.toNat ⌊percentile * (usizeSub len 1 : ℚ) * (1 / 100)⌋)
  if coord < pixel_exclusion then usizeSub (usizeSub len 1) pixel_exclusion else coord

/-- `imgvec.get(coord)` with the `1e-5` sentinel on failure (lines 141-149). -/
def sampledVal (sorted : List Nat) (coord : Nat) : ℚ :=
  match sorted.get? coord with
  | some v => (v : ℚ)
  | none => 1 / 100000

/-- `Duration::from_secs_f64`: seconds to nanoseconds, rounded. -/
def durationFromSecs (q : ℚ) : Nat := Int.toNat ⌊q * 1000000000 + 1 / 2⌋

/-- First binning loop (lines 170-174): while the candidate exposure is
below the maximum and the bin exceeds 2, halve the bin and quadruple the
exposure. -/
def binShrinkLoop (maxExp tgt bin : Nat) : Nat × Nat :=
  if tgt < maxExp ∧ 2 < bin then
    binShrinkLoop maxExp (tgt * 4) (bin / 2)
  else
    (tgt, bin)
termination_by bin
decreasing_by
  exact Nat.div_lt_self (by omega) (by omega)

/-- Second binning loop (lines 175-179): while the candidate exposure
exceeds the maximum and doubling the bin stays within the ceiling, double
the bin and quarter the exposure. -/
def binGrowLoop (maxExp maxBin tgt bin : Nat) : Nat × Nat :=
  if maxExp < tgt ∧ bin * 2 ≤ maxBin then
    binGrowLoop maxExp maxBin (tgt / 4) (bin * 2)
  else
    (tgt, bin)
termination_by tgt
decreasing_by
  exact Nat.div_lt_self (by omega) (by omega)

/-- The binning adjustment block (lines 167-183): dispatch on whether the
candidate exposure is below the maximum. -/
def binAdjust (maxExp maxBin tgt bin : Nat) : Nat × Nat :=
  if tgt < maxExp then binShrinkLoop maxExp tgt bin
  else binGrowLoop maxExp maxBin tgt bin

/-- `ImageData::find_optimum_exposure` (lines 83-201).  `pixels` is the
image's 16-bit luma buffer; the result is `(exposure in ns, bin)`. -/
def findOptimumExposure (meta : ImageMetaData) (pixels : List Nat)
    (percentile_pix pixel_tgt pixel_uncertainty : ℚ)
    (min_allowed_exp max_allowed_exp : Nat)
    (max_allowed_bin : Nat) (pixel_exclusion : Nat) :
    Except String (Nat × Nat) :=
  let exposure := meta.exposure
  if pixel_tgt < 16 / 1000000 ∨ 1 < pixel_tgt then
    .error "Target pixel value must be between 1.6e-5 and 1"
  else if pixel_uncertainty < 16 / 1000000 ∨ 1 < pixel_uncertainty then
    .error "Pixel uncertainty must be between 1.6e-5 and 1"
  else if percentile_pix < 0 ∨ 100 < percentile_pix then
    .error "Percentile must be between 0 and 100"
  else if max_allowed_exp ≤ min_allowed_exp then
    .error "Minimum allowed exposure must be less than maximum allowed exposure"
  else
    let max_allowed_bin := if max_allowed_bin < 2 then 1 else max_allowed_bin
    let ptgt := pixel_tgt * 65535
    let punc := pixel_uncertainty * 65535
    let change_bin := ¬(meta.bin_x ≠ meta.bin_y ∨ max_allowed_bin < 2)
    let bin := meta.bin_x % 65536
    let img := sortedSample pixels
    let coord := sampleCoord img.length percentile_pix pixel_exclusion
    let val := sampledVal img coord
    if |ptgt - val| < punc then
      .ok (exposure, bin)
    else
      let val := if val ≤ 1 / 100000 then 1 / 100000 else val
      let target_exposure :=
        durationFromSecs |ptgt * ((exposure / 1000 : Nat) : ℚ) * (1 / 1000000) / val|
      let adjusted :=
        if change_bin then binAdjust max_allowed_exp max_allowed_bin target_exposure bin
        else (target_exposure, bin)
      let target_exposure := adjusted.1
      let bin := adjusted.2
      let target_exposure :=
        if max_allowed_exp < target_exposure then max_allowed_exp else target_exposure
      let target_exposure :=
        if target_exposure < min_allowed_exp then min_allowed_exp else target_exposure
      let bin := if bin < 1 then 1 else bin
      let bin := if max_allowed_bin < bin then max_allowed_bin else bin
      .ok (target_exposure, bin)

/-! ## FITS persistence (`ImageData::save_fits` and its channel writers)

The `fitsio` file handle is modelled as the written file structure: the
list of image extensions created (in creation order) and the header keys
written on the primary HDU (in write order).  Filesystem effects are
modelled by an oracle state plus the list of filesystem actions the call
performs.  A Rust panic (out-of-bounds pixel-channel indexing) is a
distinct outcome, not an `Err`. -/

/-- `fitsio::images::ImageType` as selected by `save_fits`. -/
inductive FitsImageType where
  | unsignedByte | unsignedShort | float
deriving DecidableEq

/-- The storage element type chosen per layout family (lines 280-296). -/
def dataTypeOf : ColorType → FitsImageType
  | .L8 | .La8 | .Rgb8 | .Rgba8 => .unsignedByte
  | .L16 | .La16 | .Rgb16 | .Rgba16 => .unsignedShort
  | .Rgb32F | .Rgba32F => .float

/-- The primary extension name chosen per layout family (lines 298-319). -/
def primaryNameOf : ColorType → String
  | .L8 | .L16 => "IMAGE"
  | .La8 | .La16 => "LUMA"
  | _ => "RED"

/-- A FITS header key value. -/
inductive FitsKeyVal where
  | str (s : String)
  | nat (n : Nat)
  | int (i : Int)
  | rat (q : ℚ)
deriving DecidableEq

/-- One image extension: name, dimensions `[height, width]`, element type,
and the flat pixel data written into it. -/
structure FitsExt where
  name : String
  dims : List Nat
  dtype : FitsImageType
  data : List ℚ
deriving DecidableEq

/-- The written FITS file: extensions in creation order, and the header
keys written on the primary HDU in write order. -/
structure FitsFile where
  exts : List FitsExt
  primaryKeys : List (String × FitsKeyVal)
deriving DecidableEq

/-- Fuel-indexed chunking; the fuel bounds the number of chunks.  With
fuel `l.length` and a positive chunk size this is exact chunking. -/
def chunkPixelsAux (c : Nat) : Nat → List ℚ → List (List ℚ)
  | _, [] => []
  | 0, _ => []
  | fuel + 1, l => l.take c :: chunkPixelsAux c fuel (l.drop c)

/-- Split a flat buffer into consecutive pixels of `c` elements each
(the `.pixels()` iterator of an interleaved buffer; the chunk size is the
layout's channel count, always positive). -/
def chunkPixels (c : Nat) (l : List ℚ) : List (List ℚ) :=
  chunkPixelsAux c l.length l

/-- `pixels.map(|p| p[i]).collect()`: channel `i` of every pixel.  `none`
models the out-of-bounds indexing panic `p[i]` when a pixel has no
channel `i`. -/
def extractChannel (c i : Nat) (data : List ℚ) : Option (List ℚ) :=
  (chunkPixels c data).mapM fun p => p.get? i

/-- `DynamicImage::to_rgb32f` applied to an `Rgba32F` image: every
4-element pixel keeps its first three channels (alpha is discarded). -/
def dropAlphaChannel (data : List ℚ) : List ℚ :=
  ((chunkPixels 4 data).map (fun p => p.take 3)).flatten

/-- The fixed header-key block written on the primary HDU after the image
data (lines 374-393), followed by the metadata extension list in order. -/
def metaKeys (progname : String) (timestampMs : Nat) (meta : ImageMetaData) :
    List (String × FitsKeyVal) :=
  [("PROGRAM", .str progname),
   ("CAMERA", .str meta.camera_name),
   ("TIMESTAMP", .nat timestampMs),
   ("CCDTEMP", .rat meta.temperature),
   ("EXPOSURE_US", .nat (meta.exposure / 1000)),
   ("ORIGIN_X", .nat meta.img_left),
   ("ORIGIN_Y", .nat meta.img_top),
   ("BINX", .nat meta.bin_x),
   ("BINY", .nat meta.bin_y),
   ("GAIN", .int meta.gain),
   ("OFFSET", .int meta.offset),
   ("GAIN_MIN", .int meta.min_gain),
   ("GAIN_MAX", .int meta.max_gain)]
  ++ meta.extended.map (fun kv => (kv.1, FitsKeyVal.str kv.2))

/-- The FITS file produced for an image (lines 321-393 plus the
`write_*` helpers): the primary extension, the per-layout extra channel
extensions in creation order, the `CHANNELS` key and the metadata keys.
`none` models the panic in `write_rgba32`, which converts with
`to_rgb32f` (three channels) and then indexes channel 3 of each pixel. -/
def buildFits (img : DynamicImage) (meta : ImageMetaData)
    (progname : String) (timestampMs : Nat) : Option FitsFile :=
  let dims := [img.height, img.width]
  let dt := dataTypeOf img.color
  let pn := primaryNameOf img.color
  let keys := metaKeys progname timestampMs meta
  match img.color with
  | .L8 | .L16 =>
      some ⟨[⟨pn, dims, dt, img.data⟩], ("CHANNELS", .nat 1) :: keys⟩
  | .La8 | .La16 => do
      let luma ← extractChannel 2 0 img.data
      let alpha ← extractChannel 2 1 img.data
      some ⟨[⟨pn, dims, dt, luma⟩, ⟨"ALPHA", dims, dt, alpha⟩],
            ("CHANNELS", .nat 2) :: keys⟩
  | .Rgb8 | .Rgb16 | .Rgb32F => do
      let red ← extractChannel 3 0 img.data
      let green ← extractChannel 3 1 img.data
      let blue ← extractChannel 3 2 img.data
      some ⟨[⟨pn, dims, dt, red⟩, ⟨"GREEN", dims, dt, green⟩,
             ⟨"BLUE", dims, dt, blue⟩],
            ("CHANNELS", .nat 3) :: keys⟩
  | .Rgba8 | .Rgba16 => do
      let red ← extractChannel 4 0 img.data
      let green ← extractChannel 4 1 img.data
      let blue ← extractChannel 4 2 img.data
      let alpha ← extractChannel 4 3 img.data
      some ⟨[⟨pn, dims, dt, red⟩, ⟨"GREEN", dims, dt, green⟩,
             ⟨"BLUE", dims, dt, blue⟩, ⟨"ALPHA", dims, dt, alpha⟩],
            ("CHANNELS", .nat 4) :: keys⟩
  | .Rgba32F => do
      let rgb := dropAlphaChannel img.data
      let red ← extractChannel 3 0 rgb
      let green ← extractChannel 3 1 rgb
      let blue ← extractChannel 3 2 rgb
      let alpha ← extractChannel 3 3 rgb
      some ⟨[⟨pn, dims, dt, red⟩, ⟨"GREEN", dims, dt, green⟩,
             ⟨"BLUE", dims, dt, blue⟩, ⟨"ALPHA", dims, dt, alpha⟩],
            ("CHANNELS", .nat 4) :: keys⟩

/-- The filesystem facts `save_fits` consults: whether the destination
directory exists, whether the target file already exists, and whether
deleting it would succeed. -/
structure FsState where
  dirExists : Bool
  fileExists : Bool
  removeOk : Bool
deriving DecidableEq

/-- A filesystem action performed by `save_fits`. -/
inductive FsAction where
  | removeFile
  | createFile (name : String) (f : FitsFile)
deriving DecidableEq

/-- The outcome of `save_fits`: success with the list of filesystem
actions performed (in order), an error, or a panic. -/
inductive SaveResult where
  | ok (actions : List FsAction)
  | err (msg : String)
  | panic
deriving DecidableEq

/-- Output file naming (lines 239-252 and 325-330): prefix falls back to
the camera name and then `"image"`; the compression suffix is appended
on the creation path. -/
def fitsFileName (meta : ImageMetaData) (filePrefix : String)
    (timestampMs : Nat) (compress : Bool) : String :=
  let p :=
    if filePrefix.trim = "" then
      if meta.camera_name = "" then "image" else meta.camera_name
    else filePrefix
  p ++ "_" ++ toString timestampMs ++ ".fits" ++ (if compress then "[compress]" else "")

/-- `ImageData::save_fits` (lines 214-396): directory check, timestamp
conversion, already-exists / overwrite / delete handling, then the FITS
write modelled by `buildFits`. -/
def saveFits (fs : FsState) (d : ImageData) (filePrefix progname : String)
    (compress overwrite : Bool) : SaveResult :=
  if fs.dirExists = false then .err "Directory does not exist"
  else if d.meta.timestamp < 0 then .err "Could not convert timestamp"
  else
    let tms := d.meta.timestamp.toNat / 1000000
    if fs.fileExists ∧ overwrite = false then .err "File already exists"
    else if fs.fileExists ∧ overwrite = true ∧ fs.removeOk = false then
      .err "Could not remove file"
    else
      match buildFits d.img d.meta progname tms with
      | none => .panic
      | some f =>
          .ok ((if fs.fileExists then [.removeFile] else [])
               ++ [.createFile (fitsFileName d.meta filePrefix tms compress) f])

/-! ## Serialization (`ImageData` ↔ `SerialImageData`)

`SerialImageData<T>` of the `serialimagedata` crate is collapsed to a
single structure; element values are rationals as in `DynamicImage`. -/

/-- `serialimagedata::SerialImagePixel`: element-type family plus channel
count. -/
inductive SerialImagePixel where
  | u8 (channels : Nat)
  | u16 (channels : Nat)
  | f32 (channels : Nat)
deriving DecidableEq

/-- Modelled from the spec: `TryFrom<ColorType> for SerialImagePixel`
lives in the external `serialimagedata` crate; the spec requires the
registry to map each layout tag to its element type and channel count
losslessly. -/
def colorToPixel : ColorType → SerialImagePixel
  | .L8 => .u8 1
  | .La8 => .u8 2
  | .Rgb8 => .u8 3
  | .Rgba8 => .u8 4
  | .L16 => .u16 1
  | .La16 => .u16 2
  | .Rgb16 => .u16 3
  | .Rgba16 => .u16 4
  | .Rgb32F => .f32 3
  | .Rgba32F => .f32 4

/-- Modelled from the spec: `TryFrom<SerialImagePixel> for ColorType`
(external crate), the inverse direction of the lossless registry mapping;
codes outside the closed set fail. -/
def pixelToColor : SerialImagePixel → Except String ColorType
  | .u8 1 => .ok .L8
  | .u8 2 => .ok .La8
  | .u8 3 => .ok .Rgb8
  | .u8 4 => .ok .Rgba8
  | .u16 1 => .ok .L16
  | .u16 2 => .ok .La16
  | .u16 3 => .ok .Rgb16
  | .u16 4 => .ok .Rgba16
  | .f32 3 => .ok .Rgb32F
  | .f32 4 => .ok .Rgba32F
  | _ => .error "Unsupported image type"

/-- `serialimagedata::SerialImageData<T>` (element type collapsed): the
metadata, the flat element buffer, width, height and the pixel tag. -/
structure SerialImageData where
  meta : ImageMetaData
  data : List ℚ
  width : Nat
  height : Nat
  pixel : SerialImagePixel
deriving DecidableEq

/-- `TryFrom<&ImageData> for SerialImageData<u16>` (lines 729-767): for
the four u16-family layouts the raw interleaved buffer is taken as-is
(`into_*16` is the identity on a matching image); other layouts fail. -/
def imageToSerialU16 (v : ImageData) : Except String SerialImageData :=
  match v.img.color with
  | .L16 | .Rgb16 | .Rgba16 | .La16 =>
      .ok ⟨v.meta, v.img.data, v.img.width, v.img.height, colorToPixel v.img.color⟩
  | _ => .error "Unsupported image type"

/-- Result of a conversion that can also panic (`copy_from_slice` with
mismatched lengths). -/
inductive ConvResult where
  | ok (d : ImageData)
  | err (msg : String)
  | panic
deriving DecidableEq

/-- `TryFrom<&SerialImageData<u16>> for ImageData` (lines 970-1029): a
fresh `width × height` buffer of the resolved layout is filled with
`copy_from_slice`, which panics unless the stored buffer length equals
`width·height·channels`; `usize → u32` casts reduce modulo `2^32`. -/
def serialU16ToImage (v : SerialImageData) : ConvResult :=
  match pixelToColor v.pixel with
  | .error e => .err e
  | .ok color =>
    match color with
    | .L16 | .Rgb16 | .Rgba16 | .La16 =>
        let w := v.width % 2 ^ 32
        let h := v.height % 2 ^ 32
        if v.data.length = w * h * color.channelCount then
          .ok ⟨⟨color, w, h, v.data⟩, v.meta⟩
        else .panic
    | _ => .err "Unsupported image type"

/-- A default metadata record (used by concrete test inputs). -/
def metaZero : ImageMetaData :=
  ⟨1, 1, 0, 0, 0, 0, 0, "", 0, 0, 0, 0, []⟩

/-- Whether an `Except` value is a success. -/
def exceptOk {ε α : Type _} : Except ε α → Bool
  | .ok _ => true
  | .error _ => false

/-! ## Helper lemmas -/

theorem clamp_hi (a x : Nat) : (if a < x then a else x) = min a x := by
  split <;> omega

theorem clamp_lo (m x : Nat) : (if x < m then m else x) = max m x := by
  split <;> omega

theorem ite_le_sentinel_eq_max (v : ℚ) :
    (if v ≤ 1 / 100000 then (1 / 100000 : ℚ) else v) = max (1 / 100000) v := by
  by_cases hv : v ≤ 1 / 100000
  · rw [if_pos hv, max_eq_left hv]
  · rw [if_neg hv, max_eq_right (le_of_not_le hv)]

theorem clamp_bin_max_one (b : Nat) :
    (if (1 : Nat) < (if b < 1 then 1 else b) then (1 : Nat) else if b < 1 then 1 else b)
      = 1 := by
  rcases Nat.lt_or_ge b 1 with h | h
  · rw [if_pos h]
    split <;> omega
  · rw [if_neg (Nat.not_lt.mpr h)]
    split <;> omega

theorem clamp_bin_eq_min_max (mb b : Nat) :
    (if mb < (if b < 1 then 1 else b) then mb else if b < 1 then 1 else b)
      = min mb (max 1 b) := by
  rcases Nat.lt_or_ge b 1 with h | h
  · rw [if_pos h]
    split <;> omega
  · rw [if_neg (Nat.not_lt.mpr h)]
    split <;> omega

theorem not_lt_or_lt {a b v : ℚ} (h1 : a ≤ v) (h2 : v ≤ b) : ¬(v < a ∨ b < v) := by
  push_neg
  exact ⟨h1, h2⟩

theorem binShrinkLoop_eq (maxExp t b : Nat) :
    binShrinkLoop maxExp t b
      = if t < maxExp ∧ 2 < b then binShrinkLoop maxExp (t * 4) (b / 2) else (t, b) := by
  conv_lhs => rw [binShrinkLoop]

theorem binGrowLoop_eq (maxExp maxBin t b : Nat) :
    binGrowLoop maxExp maxBin t b
      = if maxExp < t ∧ b * 2 ≤ maxBin then binGrowLoop maxExp maxBin (t / 4) (b * 2)
        else (t, b) := by
  conv_lhs => rw [binGrowLoop]

/-- Post-validation in-band path: the optimizer returns the metadata's
exposure and the (narrowed) x-binning unchanged. -/
theorem findOpt_inband_aux (meta : ImageMetaData) (pixels : List Nat)
    (pp pt pu : ℚ) (minE maxE mb pe : Nat)
    (h1 : ¬(pt < 16 / 1000000 ∨ 1 < pt))
    (h2 : ¬(pu < 16 / 1000000 ∨ 1 < pu))
    (h3 : ¬(pp < 0 ∨ 100 < pp))
    (h4 : ¬(maxE ≤ minE))
    (hband : |pt * 65535 - sampledVal (sortedSample pixels)
        (sampleCoord (sortedSample pixels).length pp pe)| < pu * 65535) :
    findOptimumExposure meta pixels pp pt pu minE maxE mb pe
      = .ok (meta.exposure, meta.bin_x % 65536) := by
  simp only [findOptimumExposure]
  rw [if_neg h1, if_neg h2, if_neg h3, if_neg h4, if_pos hband]

/-! ## Claim theorems -/

/-- C6: if the sampled pixel value is within `pixel_uncertainty·65535` of
`pixel_tgt·65535`, `find_optimum_exposure` returns the current metadata
exposure and the current bin unchanged, with no recomputation. -/
theorem C6_unchanged_case (meta : ImageMetaData) (pixels : List Nat)
    (pp pt pu : ℚ) (minE maxE mb pe : Nat)
    (h1 : 16 / 1000000 ≤ pt) (h2 : pt ≤ 1)
    (h3 : 16 / 1000000 ≤ pu) (h4 : pu ≤ 1)
    (h5 : 0 ≤ pp) (h6 : pp ≤ 100) (h7 : minE < maxE)
    (hband : |pt * 65535 - sampledVal (sortedSample pixels)
        (sampleCoord (sortedSample pixels).length pp pe)| < pu * 65535) :
    findOptimumExposure meta pixels pp pt pu minE maxE mb pe
      = .ok (meta.exposure, meta.bin_x % 65536) :=
  findOpt_inband_aux meta pixels pp pt pu minE maxE mb pe
    (not_lt_or_lt h1 h2) (not_lt_or_lt h3 h4) (not_lt_or_lt h5 h6)
    (Nat.not_le.mpr h7) hband

/-- Witness for C6: current exposure 2 s, bin 2, sample value exactly
`pixel_tgt·65535`; the result is `(2 s, 2)` unchanged. -/
theorem C6_unchanged_case_witness :
    findOptimumExposure ⟨2, 2, 0, 0, 0, 2000000000, 0, "", 0, 0, 0, 0, []⟩ [32768]
        50 (32768 / 65535) (1 / 1000) (10 ^ 8) (10 ^ 10) 4 0
      = .ok (2000000000, 2) := by
  have h := C6_unchanged_case ⟨2, 2, 0, 0, 0, 2000000000, 0, "", 0, 0, 0, 0, []⟩ [32768]
    50 (32768 / 65535) (1 / 1000) (10 ^ 8) (10 ^ 10) 4 0
    (by norm_num) (by norm_num) (by norm_num) (by norm_num) (by norm_num) (by norm_num)
    (by norm_num) (by decide)
  rw [h]
  rfl

/-- C10: on the unchanged early return the final clamping steps are
skipped: the metadata's exposure and bin are returned verbatim even when
the exposure exceeds `max_allowed_exp` and the bin exceeds the normalized
`max_allowed_bin`. -/
theorem C10_unchanged_skips_clamp (meta : ImageMetaData) (pixels : List Nat)
    (pp pt pu : ℚ) (minE maxE mb pe : Nat)
    (h1 : 16 / 1000000 ≤ pt) (h2 : pt ≤ 1)
    (h3 : 16 / 1000000 ≤ pu) (h4 : pu ≤ 1)
    (h5 : 0 ≤ pp) (h6 : pp ≤ 100) (h7 : minE < maxE)
    (hexp : maxE < meta.exposure)
    (hbin : (if mb < 2 then 1 else mb) < meta.bin_x % 65536)
    (hband : |pt * 65535 - sampledVal (sortedSample pixels)
        (sampleCoord (sortedSample pixels).length pp pe)| < pu * 65535) :
    findOptimumExposure meta pixels pp pt pu minE maxE mb pe
      = .ok (meta.exposure, meta.bin_x % 65536) :=
  findOpt_inband_aux meta pixels pp pt pu minE maxE mb pe
    (not_lt_or_lt h1 h2) (not_lt_or_lt h3 h4) (not_lt_or_lt h5 h6)
    (Nat.not_le.mpr h7) hband

/-- Witness for C10: exposure 10 s with `max_allowed_exp` 5 s, bin 8 with
`max_allowed_bin` 4; both are returned unchanged. -/
theorem C10_unchanged_skips_clamp_witness :
    findOptimumExposure ⟨8, 8, 0, 0, 0, 10000000000, 0, "", 0, 0, 0, 0, []⟩ [32768]
        50 (32768 / 65535) (1 / 1000) (10 ^ 9) (5 * 10 ^ 9) 4 0
      = .ok (10000000000, 8) := by
  have h := C10_unchanged_skips_clamp ⟨8, 8, 0, 0, 0, 10000000000, 0, "", 0, 0, 0, 0, []⟩
    [32768] 50 (32768 / 65535) (1 / 1000) (10 ^ 9) (5 * 10 ^ 9) 4 0
    (by norm_num) (by norm_num) (by norm_num) (by norm_num) (by norm_num) (by norm_num)
    (by norm_num) (by norm_num) (by decide) (by decide)
  rw [h]
  rfl

/-- C4: on an empty pixel sample the lookup yields the `1e-5` sentinel and
the optimizer still returns a successful result (no error, no failure). -/
theorem C4_empty_sample_sentinel (meta : ImageMetaData) (pp pt pu : ℚ)
    (minE maxE mb pe : Nat)
    (h1 : 16 / 1000000 ≤ pt) (h2 : pt ≤ 1)
    (h3 : 16 / 1000000 ≤ pu) (h4 : pu ≤ 1)
    (h5 : 0 ≤ pp) (h6 : pp ≤ 100) (h7 : minE < maxE) :
    (∀ c, sampledVal (sortedSample []) c = 1 / 100000)
      ∧ exceptOk (findOptimumExposure meta [] pp pt pu minE maxE mb pe) = true := by
  constructor
  · intro c
    rfl
  · simp only [findOptimumExposure]
    rw [if_neg (not_lt_or_lt h1 h2), if_neg (not_lt_or_lt h3 h4),
        if_neg (not_lt_or_lt h5 h6), if_neg (Nat.not_le.mpr h7)]
    split
    · rfl
    · rfl

/-- Witness for C4: empty sample, valid parameters; the sentinel is used
and the call succeeds. -/
theorem C4_empty_sample_sentinel_witness :
    sampledVal (sortedSample []) 0 = 1 / 100000
      ∧ exceptOk (findOptimumExposure metaZero [] 50 (1 / 2) (1 / 1000)
          (10 ^ 8) (10 ^ 10) 1 0) = true := by
  have h := C4_empty_sample_sentinel metaZero 50 (1 / 2) (1 / 1000) (10 ^ 8) (10 ^ 10) 1 0
    (by norm_num) (by norm_num) (by norm_num) (by norm_num) (by norm_num) (by norm_num)
    (by norm_num)
  exact ⟨h.1 0, h.2⟩

/-- C5: `find_optimum_exposure` fails exactly when a precondition fails
(`pixel_tgt` or `pixel_uncertainty` outside `[1.6e-5, 1]`, `percentile_pix`
outside `[0, 100]`, or `min_allowed_exp ≥ max_allowed_exp`); in particular
`pixel_tgt = 1` is accepted, `pixel_tgt = 1.000001` is rejected, and
`min_allowed_exp = max_allowed_exp` is rejected. -/
theorem C5_validation_boundaries :
    (∀ (meta : ImageMetaData) (pixels : List Nat) (pp pt pu : ℚ) (minE maxE mb pe : Nat),
      (∃ s, findOptimumExposure meta pixels pp pt pu minE maxE mb pe = .error s) ↔
        ((pt < 16 / 1000000 ∨ 1 < pt) ∨ (pu < 16 / 1000000 ∨ 1 < pu) ∨
         (pp < 0 ∨ 100 < pp) ∨ maxE ≤ minE))
    ∧ exceptOk (findOptimumExposure metaZero [32768] 50 1 (1 / 1000)
        (10 ^ 8) (10 ^ 10) 1 0) = true
    ∧ findOptimumExposure metaZero [32768] 50 (1000001 / 1000000) (1 / 1000)
        (10 ^ 8) (10 ^ 10) 1 0
      = .error "Target pixel value must be between 1.6e-5 and 1"
    ∧ findOptimumExposure metaZero [32768] 50 (1 / 2) (1 / 1000) (10 ^ 9) (10 ^ 9) 1 0
      = .error "Minimum allowed exposure must be less than maximum allowed exposure" := by
  refine ⟨?_, by decide, by decide, by decide⟩
  intro meta pixels pp pt pu minE maxE mb pe
  constructor
  · rintro ⟨s, hs⟩
    by_contra hcon
    rw [not_or] at hcon
    obtain ⟨n1, hcon⟩ := hcon
    rw [not_or] at hcon
    obtain ⟨n2, hcon⟩ := hcon
    rw [not_or] at hcon
    obtain ⟨n3, n4⟩ := hcon
    simp only [findOptimumExposure] at hs
    rw [if_neg n1, if_neg n2, if_neg n3, if_neg n4] at hs
    split at hs <;> exact Except.noConfusion hs
  · intro h
    simp only [findOptimumExposure]
    by_cases k1 : pt < 16 / 1000000 ∨ 1 < pt
    · exact ⟨_, if_pos k1⟩
    rw [if_neg k1]
    by_cases k2 : pu < 16 / 1000000 ∨ 1 < pu
    · exact ⟨_, if_pos k2⟩
    rw [if_neg k2]
    by_cases k3 : pp < 0 ∨ 100 < pp
    · exact ⟨_, if_pos k3⟩
    rw [if_neg k3]
    by_cases k4 : maxE ≤ minE
    · exact ⟨_, if_pos k4⟩
    exact absurd h (not_or.mpr ⟨k1, not_or.mpr ⟨k2, not_or.mpr ⟨k3, k4⟩⟩⟩)

/-- Witness for C5: the validation equivalence instantiated at an
out-of-range percentile (-1) yields an error. -/
theorem C5_validation_boundaries_witness :
    ∃ s, findOptimumExposure metaZero [32768] (-1) (1 / 2) (1 / 1000)
        (10 ^ 8) (10 ^ 10) 1 0 = .error s :=
  (C5_validation_boundaries.1 metaZero [32768] (-1) (1 / 2) (1 / 1000)
      (10 ^ 8) (10 ^ 10) 1 0).mpr
    (Or.inr (Or.inr (Or.inl (Or.inl (by norm_num)))))

/-- C7: outside the unchanged case and with binning adjustment disabled
(`max_allowed_bin < 2`), the new exposure is the current exposure scaled by
`pixel_tgt·65535` over the sample value floored at `1e-5`, with absolute
value taken and the result clamped to `[min_allowed_exp, max_allowed_exp]`;
the returned bin is 1. -/
theorem C7_scaling_binning_disabled (meta : ImageMetaData) (pixels : List Nat)
    (pp pt pu : ℚ) (minE maxE mb pe : Nat)
    (h1 : 16 / 1000000 ≤ pt) (h2 : pt ≤ 1)
    (h3 : 16 / 1000000 ≤ pu) (h4 : pu ≤ 1)
    (h5 : 0 ≤ pp) (h6 : pp ≤ 100) (h7 : minE < maxE) (hmb : mb < 2)
    (hband : ¬ |pt * 65535 - sampledVal (sortedSample pixels)
        (sampleCoord (sortedSample pixels).length pp pe)| < pu * 65535) :
    findOptimumExposure meta pixels pp pt pu minE maxE mb pe
      = .ok (max minE (min maxE (durationFromSecs
          |pt * 65535 * ((meta.exposure / 1000 : Nat) : ℚ) * (1 / 1000000) /
            max (1 / 100000) (sampledVal (sortedSample pixels)
              (sampleCoord (sortedSample pixels).length pp pe))|)), 1) := by
  simp only [findOptimumExposure]
  rw [if_neg (not_lt_or_lt h1 h2), if_neg (not_lt_or_lt h3 h4),
      if_neg (not_lt_or_lt h5 h6), if_neg (Nat.not_le.mpr h7), if_pos hmb,
      if_neg hband]
  have hcb : ¬¬(meta.bin_x ≠ meta.bin_y ∨ (1 : Nat) < 2) := by
    intro hn
    exact hn (Or.inr (by omega))
  rw [if_neg hcb, ite_le_sentinel_eq_max, clamp_hi, clamp_lo, clamp_bin_max_one]

/-- Witness for C7: exposure 1 s, sample value half the target, binning
disabled; the result is exposure 2 s (within bounds) and bin 1. -/
theorem C7_scaling_binning_disabled_witness :
    findOptimumExposure ⟨1, 1, 0, 0, 0, 1000000000, 0, "", 0, 0, 0, 0, []⟩ [16384]
        50 (32768 / 65535) (1 / 1000) (10 ^ 5) (10 ^ 10) 1 0
      = .ok (2000000000, 1) := by
  have h := C7_scaling_binning_disabled ⟨1, 1, 0, 0, 0, 1000000000, 0, "", 0, 0, 0, 0, []⟩
    [16384] 50 (32768 / 65535) (1 / 1000) (10 ^ 5) (10 ^ 10) 1 0
    (by norm_num) (by norm_num) (by norm_num) (by norm_num) (by norm_num) (by norm_num)
    (by norm_num) (by norm_num) (by decide)
  rw [h]
  decide

/-- C8: binning adjustment runs only when the x- and y-binning are equal and
the normalized `max_allowed_bin` is at least 2; the first loop halves the bin
and quadruples the exposure while the exposure is below `max_allowed_exp` and
the bin exceeds 2, the second doubles the bin and quarters the exposure while
the exposure exceeds `max_allowed_exp` and doubling stays within
`max_allowed_bin`; the final exposure is clamped to
`[min_allowed_exp, max_allowed_exp]` and the bin to `[1, max_allowed_bin]`. -/
theorem C8_binning_adjustment :
    (∀ maxExp t b : Nat, t < maxExp → 2 < b →
        binShrinkLoop maxExp t b = binShrinkLoop maxExp (t * 4) (b / 2))
    ∧ (∀ maxExp t b : Nat, ¬(t < maxExp ∧ 2 < b) → binShrinkLoop maxExp t b = (t, b))
    ∧ (∀ maxExp maxBin t b : Nat, maxExp < t → b * 2 ≤ maxBin →
        binGrowLoop maxExp maxBin t b = binGrowLoop maxExp maxBin (t / 4) (b * 2))
    ∧ (∀ maxExp maxBin t b : Nat, ¬(maxExp < t ∧ b * 2 ≤ maxBin) →
        binGrowLoop maxExp maxBin t b = (t, b))
    ∧ (∀ (meta : ImageMetaData) (pixels : List Nat) (pp pt pu : ℚ) (minE maxE mb pe : Nat),
        16 / 1000000 ≤ pt → pt ≤ 1 → 16 / 1000000 ≤ pu → pu ≤ 1 →
        0 ≤ pp → pp ≤ 100 → minE < maxE →
        meta.bin_x = meta.bin_y → 2 ≤ mb →
        ¬ |pt * 65535 - sampledVal (sortedSample pixels)
            (sampleCoord (sortedSample pixels).length pp pe)| < pu * 65535 →
        findOptimumExposure meta pixels pp pt pu minE maxE mb pe
          = .ok (max minE (min maxE
                (binAdjust maxE mb (durationFromSecs
                  |pt * 65535 * ((meta.exposure / 1000 : Nat) : ℚ) * (1 / 1000000) /
                    max (1 / 100000) (sampledVal (sortedSample pixels)
                      (sampleCoord (sortedSample pixels).length pp pe))|)
                  (meta.bin_x % 65536)).1),
              min mb (max 1
                (binAdjust maxE mb (durationFromSecs
                  |pt * 65535 * ((meta.exposure / 1000 : Nat) : ℚ) * (1 / 1000000) /
                    max (1 / 100000) (sampledVal (sortedSample pixels)
                      (sampleCoord (sortedSample pixels).length pp pe))|)
                  (meta.bin_x % 65536)).2))) := by
  refine ⟨?_, ?_, ?_, ?_, ?_⟩
  · intro maxExp t b hlt hb
    conv_lhs => rw [binShrinkLoop]
    rw [if_pos ⟨hlt, hb⟩]
  · intro maxExp t b h
    conv_lhs => rw [binShrinkLoop]
    rw [if_neg h]
  · intro maxExp maxBin t b hlt hb
    conv_lhs => rw [binGrowLoop]
    rw [if_pos ⟨hlt, hb⟩]
  · intro maxExp maxBin t b h
    conv_lhs => rw [binGrowLoop]
    rw [if_neg h]
  · intro meta pixels pp pt pu minE maxE mb pe h1 h2 h3 h4 h5 h6 h7 hbxy hmb2 hband
    simp only [findOptimumExposure]
    rw [if_neg (not_lt_or_lt h1 h2), if_neg (not_lt_or_lt h3 h4),
        if_neg (not_lt_or_lt h5 h6), if_neg (Nat.not_le.mpr h7),
        if_neg (Nat.not_lt.mpr hmb2), if_neg hband]
    have hcb : ¬(meta.bin_x ≠ meta.bin_y ∨ mb < 2) :=
      not_or.mpr ⟨fun hn => hn hbxy, Nat.not_lt.mpr hmb2⟩
    rw [if_pos hcb, ite_le_sentinel_eq_max, clamp_hi, clamp_lo, clamp_bin_eq_min_max]

/-- Witness for C8: equal binning 4, `max_allowed_bin` 8; the candidate
exposure 64 s exceeds the 10 s maximum, so the bin doubles to 8 and the
exposure is quartered to 16 s, then clamped to 10 s.  The loop-step
equations are also instantiated at concrete values. -/
theorem C8_binning_adjustment_witness :
    binShrinkLoop 100 5 8 = binShrinkLoop 100 20 4
    ∧ binShrinkLoop 100 200 8 = (200, 8)
    ∧ binGrowLoop 100 8 200 4 = binGrowLoop 100 8 50 8
    ∧ binGrowLoop 100 8 50 8 = (50, 8)
    ∧ findOptimumExposure ⟨4, 4, 0, 0, 0, 8000000000, 0, "", 0, 0, 0, 0, []⟩ [4096]
        50 (32768 / 65535) (1 / 1000) (10 ^ 5) (10 ^ 10) 8 0
      = .ok (10 ^ 10, 8) := by
  obtain ⟨hstep, hexit, gstep, gexit, hmain⟩ := C8_binning_adjustment
  refine ⟨hstep 100 5 8 (by omega) (by omega),
          hexit 100 200 8 (by omega),
          gstep 100 8 200 4 (by omega) (by omega),
          gexit 100 8 50 8 (by omega), ?_⟩
  have h := hmain ⟨4, 4, 0, 0, 0, 8000000000, 0, "", 0, 0, 0, 0, []⟩ [4096]
    50 (32768 / 65535) (1 / 1000) (10 ^ 5) (10 ^ 10) 8 0
    (by norm_num) (by norm_num) (by norm_num) (by norm_num) (by norm_num) (by norm_num)
    (by norm_num) rfl (by norm_num) (by decide)
  rw [h]
  have hD : durationFromSecs
      |(32768 / 65535 : ℚ) * 65535 *
        (((⟨4, 4, 0, 0, 0, 8000000000, 0, "", 0, 0, 0, 0, []⟩ : ImageMetaData).exposure
            / 1000 : Nat) : ℚ) * (1 / 1000000) /
        max (1 / 100000) (sampledVal (sortedSample [4096])
          (sampleCoord (sortedSample [4096]).length 50 0))| = 64 * 10 ^ 9 := by decide
  rw [hD]
  have e1 : binAdjust (10 ^ 10) 8 (64 * 10 ^ 9)
      ((⟨4, 4, 0, 0, 0, 8000000000, 0, "", 0, 0, 0, 0, []⟩ : ImageMetaData).bin_x % 65536)
      = (16 * 10 ^ 9, 8) := by
    show binAdjust (10 ^ 10) 8 (64 * 10 ^ 9) (4 % 65536) = (16 * 10 ^ 9, 8)
    simp only [binAdjust]
    rw [if_neg (by norm_num)]
    rw [binGrowLoop_eq, if_pos (by norm_num : (10 : Nat) ^ 10 < 64 * 10 ^ 9 ∧ 4 % 65536 * 2 ≤ 8)]
    rw [binGrowLoop_eq, if_neg (by norm_num)]
    norm_num
  rw [e1]
  decide

/-- C3 (failing-input evaluation): with 10 sorted samples, percentile 100
and `pixel_exclusion` 3, the selected index is 9, which lies inside the
excluded top 3 indices (`9 > 10 - 1 - 3 = 6`) yet is NOT re-clamped: the
code only re-points indices below `pixel_exclusion`.  The pixel 65535 at
index 9 is read and the exposure is recomputed to 1 s, although the pixel
32767 at the claim's re-clamped index 6 lies inside the uncertainty band,
which would have returned the 2 s exposure unchanged. -/
theorem C3_top_exclusion_not_applied :
    sampleCoord 10 100 3 = 9
    ∧ ¬ sampleCoord 10 100 3 ≤ 10 - 1 - 3
    ∧ findOptimumExposure ⟨1, 1, 0, 0, 0, 2000000000, 0, "", 0, 0, 0, 0, []⟩
        [0, 0, 0, 0, 0, 0, 32767, 40000, 50000, 65535] 100 (1 / 2) (1 / 1000)
        (10 ^ 8) (10 ^ 10) 1 3
      = .ok (1000000000, 1)
    ∧ |(1 / 2 : ℚ) * 65535
        - sampledVal (sortedSample [0, 0, 0, 0, 0, 0, 32767, 40000, 50000, 65535]) 6|
      < (1 / 1000) * 65535 := by
  refine ⟨by decide, by decide, by decide, by decide⟩

/-- C2: converting an `ImageData` of any u16-family layout (L16, La16,
Rgb16, Rgba16) to `SerialImageData<u16>` and back reproduces the pixel
values and metadata exactly. -/
theorem C2_u16_roundtrip (d : ImageData)
    (hc : d.img.color = .L16 ∨ d.img.color = .La16 ∨ d.img.color = .Rgb16 ∨
          d.img.color = .Rgba16)
    (hw : d.img.width < 2 ^ 32) (hh : d.img.height < 2 ^ 32)
    (hwf : d.img.data.length = d.img.width * d.img.height * d.img.color.channelCount) :
    ∃ s, imageToSerialU16 d = .ok s ∧ serialU16ToImage s = .ok d := by
  obtain ⟨⟨c, w, h, dat⟩, m⟩ := d
  dsimp only at hc hw hh hwf
  rcases hc with hc | hc | hc | hc <;> subst hc <;>
    simp only [ColorType.channelCount] at hwf <;>
    refine ⟨_, rfl, ?_⟩ <;>
    · simp only [imageToSerialU16, serialU16ToImage, colorToPixel, pixelToColor,
        ColorType.channelCount]
      rw [Nat.mod_eq_of_lt hw, Nat.mod_eq_of_lt hh, if_pos hwf]

/-- Witness for C2: a 1×1 Rgba16 image round-trips exactly. -/
theorem C2_u16_roundtrip_witness :
    imageToSerialU16 ⟨⟨.Rgba16, 1, 1, [1, 2, 3, 4]⟩, metaZero⟩
        = .ok ⟨metaZero, [1, 2, 3, 4], 1, 1, .u16 4⟩
      ∧ serialU16ToImage ⟨metaZero, [1, 2, 3, 4], 1, 1, .u16 4⟩
        = .ok ⟨⟨.Rgba16, 1, 1, [1, 2, 3, 4]⟩, metaZero⟩ := by
  obtain ⟨s, h1, h2⟩ := C2_u16_roundtrip ⟨⟨.Rgba16, 1, 1, [1, 2, 3, 4]⟩, metaZero⟩
    (Or.inr (Or.inr (Or.inr rfl))) (by norm_num) (by norm_num) (by decide)
  have hs : s = ⟨metaZero, [1, 2, 3, 4], 1, 1, .u16 4⟩ := by
    have h3 := h1.symm.trans (by decide :
      imageToSerialU16 ⟨⟨.Rgba16, 1, 1, [1, 2, 3, 4]⟩, metaZero⟩
        = .ok ⟨metaZero, [1, 2, 3, 4], 1, 1, .u16 4⟩)
    injection h3
  subst hs
  exact ⟨h1, h2⟩

/-- C9: with the target file present, `save_fits` fails with the
already-exists error unless `overwrite` is set; with `overwrite`, a failed
deletion is surfaced as an error, and a successful deletion happens before
the new file is created. -/
theorem C9_overwrite_semantics (fs : FsState) (d : ImageData) (fp pn : String)
    (compress : Bool)
    (hdir : fs.dirExists = true) (hts : 0 ≤ d.meta.timestamp)
    (hex : fs.fileExists = true) :
    (saveFits fs d fp pn compress false = .err "File already exists")
    ∧ (fs.removeOk = false →
        saveFits fs d fp pn compress true = .err "Could not remove file")
    ∧ (fs.removeOk = true → ∀ f,
        buildFits d.img d.meta pn (d.meta.timestamp.toNat / 1000000) = some f →
        saveFits fs d fp pn compress true
          = .ok [.removeFile,
                 .createFile
                   (fitsFileName d.meta fp (d.meta.timestamp.toNat / 1000000) compress)
                   f]) := by
  refine ⟨?_, ?_, ?_⟩
  · simp only [saveFits]
    rw [if_neg (by simp [hdir]), if_neg (Int.not_lt.mpr hts), if_pos ⟨hex, trivial⟩]
  · intro hro
    simp only [saveFits]
    rw [if_neg (by simp [hdir]), if_neg (Int.not_lt.mpr hts),
        if_neg (by simp), if_pos ⟨hex, trivial, hro⟩]
  · intro hro f hb
    simp only [saveFits, hb, hex]
    rw [if_neg (by simp [hdir]), if_neg (Int.not_lt.mpr hts),
        if_neg (by simp), if_neg (by simp [hro])]
    rfl

/-- Witness for C9: a 1×1 L8 image over an existing file: already-exists
error without overwrite, deletion-failure error when the delete fails, and
remove-then-create on success. -/
theorem C9_overwrite_semantics_witness :
    saveFits ⟨true, true, true⟩ ⟨⟨.L8, 1, 1, [5]⟩, metaZero⟩ "a" "p" false false
        = .err "File already exists"
    ∧ saveFits ⟨true, true, false⟩ ⟨⟨.L8, 1, 1, [5]⟩, metaZero⟩ "a" "p" false true
        = .err "Could not remove file"
    ∧ saveFits ⟨true, true, true⟩ ⟨⟨.L8, 1, 1, [5]⟩, metaZero⟩ "a" "p" false true
        = .ok [.removeFile,
               .createFile (fitsFileName metaZero "a" 0 false)
                 ⟨[⟨"IMAGE", [1, 1], .unsignedByte, [5]⟩],
                  ("CHANNELS", .nat 1) :: metaKeys "p" 0 metaZero⟩] := by
  refine ⟨?_, ?_, ?_⟩
  · exact (C9_overwrite_semantics ⟨true, true, true⟩ ⟨⟨.L8, 1, 1, [5]⟩, metaZero⟩
      "a" "p" false rfl (by decide) rfl).1
  · exact (C9_overwrite_semantics ⟨true, true, false⟩ ⟨⟨.L8, 1, 1, [5]⟩, metaZero⟩
      "a" "p" false rfl (by decide) rfl).2.1 rfl
  · exact (C9_overwrite_semantics ⟨true, true, true⟩ ⟨⟨.L8, 1, 1, [5]⟩, metaZero⟩
      "a" "p" false rfl (by decide) rfl).2.2 rfl
      ⟨[⟨"IMAGE", [1, 1], .unsignedByte, [5]⟩],
       ("CHANNELS", .nat 1) :: metaKeys "p" 0 metaZero⟩ (by decide)

/-- C1 (failing-input evaluation): RGBA8 and RGBA16 images produce exactly
the four extensions RED, GREEN, BLUE, ALPHA in that order with identical
dimensions and a CHANNELS=4 key on the primary extension, but an RGBA32F
image does not: `write_rgba32` converts with `to_rgb32f` (three channels,
alpha discarded) and then reads channel index 3 of each pixel, an
out-of-bounds access, so `save_fits` panics instead of writing the four
extensions. -/
theorem C1_rgba_channel_extensions :
    buildFits ⟨.Rgba16, 1, 2, [1, 2, 3, 4, 5, 6, 7, 8]⟩ metaZero "p" 0
      = some ⟨[⟨"RED", [2, 1], .unsignedShort, [1, 5]⟩,
               ⟨"GREEN", [2, 1], .unsignedShort, [2, 6]⟩,
               ⟨"BLUE", [2, 1], .unsignedShort, [3, 7]⟩,
               ⟨"ALPHA", [2, 1], .unsignedShort, [4, 8]⟩],
              ("CHANNELS", .nat 4) :: metaKeys "p" 0 metaZero⟩
    ∧ buildFits ⟨.Rgba8, 1, 1, [9, 10, 11, 12]⟩ metaZero "p" 0
      = some ⟨[⟨"RED", [1, 1], .unsignedByte, [9]⟩,
               ⟨"GREEN", [1, 1], .unsignedByte, [10]⟩,
               ⟨"BLUE", [1, 1], .unsignedByte, [11]⟩,
               ⟨"ALPHA", [1, 1], .unsignedByte, [12]⟩],
              ("CHANNELS", .nat 4) :: metaKeys "p" 0 metaZero⟩
    ∧ dropAlphaChannel [1 / 2, 1 / 4, 1 / 8, 1] = [1 / 2, 1 / 4, 1 / 8]
    ∧ buildFits ⟨.Rgba32F, 1, 1, [1 / 2, 1 / 4, 1 / 8, 1]⟩ metaZero "p" 0 = none
    ∧ saveFits ⟨true, false, true⟩ ⟨⟨.Rgba32F, 1, 1, [1 / 2, 1 / 4, 1 / 8, 1]⟩, metaZero⟩
        "a" "p" false false = .panic := by
  refine ⟨by decide, by decide, by decide, by decide, by decide⟩

end CameraUnit
